import Mathlib

/-!
Verification of the novasketch-backend session/protocol layer.

The development shallowly embeds the JavaScript sources:
  * src/src/utils/validation.js         (validatePropertyUpdate)
  * src/unnamed/part_004                (broadcastToRoom, getOrCreateRoom load,
                                         saveToDB debounce, message dispatcher,
                                         close handler, doc update handler)
  * src/unnamed/part_001                (self-healing load branch)
  * src/src/server.js                   (message-handler broadcast loop)
JavaScript dynamic values are modelled by the inductive JSValue below; IEEE
NaN is modelled explicitly since the validator relies on its comparison
semantics.  Machine timers are modelled by an explicit timeline machine.
-/

/-! ## JavaScript value model -/

/-- JS number: either NaN or a finite value (modelled as a rational; all
numbers appearing in these payloads are exactly representable). -/
inductive JSNum where
  | nan : JSNum
  | finite : Rat → JSNum
  deriving DecidableEq

/-- Dynamic JavaScript value as deliverable by JSON parsing plus undefined. -/
inductive JSValue where
  | undefined : JSValue
  | null : JSValue
  | bool : Bool → JSValue
  | num : JSNum → JSValue
  | str : String → JSValue
  | arr : List JSValue → JSValue
  | obj : List (String × JSValue) → JSValue

/-- JS property access payload[k]: undefined on every non-object receiver that
the validator can reach, field lookup on objects. -/
def getField (v : JSValue) (k : String) : JSValue :=
  match v with
  | .obj fields => (fields.lookup k).getD .undefined
  | _ => .undefined

/-- JS truthiness: undefined, null, false, 0, NaN and the empty string are
falsy, everything else (objects and arrays included) is truthy. -/
def truthy : JSValue → Bool
  | .undefined => false
  | .null => false
  | .bool b => b
  | .num .nan => false
  | .num (.finite q) => !(q == 0)
  | .str s => !(s == "")
  | .arr _ => true
  | .obj _ => true

/-- typeof v === (the string) number; true exactly for numbers, NaN included. -/
def isNumber : JSValue → Bool
  | .num _ => true
  | _ => false

/-- typeof v === (the string) string. -/
def isString : JSValue → Bool
  | .str _ => true
  | _ => false

/-- typeof v === (the string) object: null, arrays and plain objects. -/
def typeofIsObject : JSValue → Bool
  | .null => true
  | .arr _ => true
  | .obj _ => true
  | _ => false

def isUndefined : JSValue → Bool
  | .undefined => true
  | _ => false

/-- the string content of a JS string value (only reached after isString). -/
def strOf : JSValue → String
  | .str s => s
  | _ => ""

/-- whitespace characters stripped by JS String.prototype.trim (the ones
relevant to these payloads). -/
def isJsSpace (c : Char) : Bool :=
  c == ' ' || c == '\t' || c == '\n' || c == '\r'

/-- drop leading whitespace from a character list. -/
def dropLeadSpace : List Char → List Char
  | [] => []
  | c :: cs => if isJsSpace c then dropLeadSpace cs else c :: cs

/-- JS String.prototype.trim, modelled structurally over the character
list so that it evaluates inside the kernel. -/
def jsTrim (s : String) : String :=
  ⟨(dropLeadSpace ((dropLeadSpace s.data).reverse)).reverse⟩

/-- JS number-to-string coercion for the values reachable here; integers
print exactly as in JS. -/
def jsNumToString : JSNum → String :=
  fun n =>
    match n with
    | .nan => "NaN"
    | .finite q => if q.den == 1 then toString q.num else toString q

mutual

/-- JS string coercion (template literal), as used by the type error
message of the validator. -/
def jsToString : JSValue → String
  | .undefined => "undefined"
  | .null => "null"
  | .bool b => if b then "true" else "false"
  | .num n => jsNumToString n
  | .str s => s
  | .arr xs => jsToStringList xs
  | .obj _ => "[object Object]"

/-- JS Array toString: elements joined by commas. -/
def jsToStringList : List JSValue → String
  | [] => ""
  | [x] => jsToString x
  | x :: y :: xs => jsToString x ++ "," ++ jsToStringList (y :: xs)

end

/-! ## Validation layer (src/src/utils/validation.js) -/

/-- result object of validatePropertyUpdate. -/
structure ValidationResult where
  valid : Bool
  error : Option String
  deriving DecidableEq

def emptyStr : String := ""

def objectIdKey : String := "objectId"
def typeKey : String := "type"
def propertiesKey : String := "properties"
def widthKey : String := "width"
def heightKey : String := "height"
def rotationKey : String := "rotation"
def scaleXKey : String := "scaleX"
def scaleYKey : String := "scaleY"

def errObjectId : String := "Missing or invalid objectId"
def errTypePre : String := "Invalid type: "
def errTypePost : String := ". Expected: resize, rotate, update"
def errProperties : String := "Missing or invalid properties object"
def errNumPre : String := "Property \x27"
def errNumPost : String := "\x27 must be a number"
def errWidthPositive : String := "width must be positive"
def errHeightPositive : String := "height must be positive"

def resizeStr : String := "resize"
def rotateStr : String := "rotate"
def updateStr : String := "update"

/-- validTypes.includes(payload.type): true exactly for the three strings. -/
def isValidType : JSValue → Bool
  | .str s => s == resizeStr || s == rotateStr || s == updateStr
  | _ => false

/-- JS comparison v <= 0 on the values reachable at the positivity checks:
the value is a number there (non-numbers returned earlier); NaN <= 0 is
false under IEEE semantics. -/
def jsLeZero : JSValue → Bool
  | .num .nan => false
  | .num (.finite q) => decide (q ≤ 0)
  | _ => false

def numericFields : List String :=
  [widthKey, heightKey, rotationKey, scaleXKey, scaleYKey]

/-- the for-loop over numericFields: first non-numeric present field yields
the error, in declaration order. -/
def checkNumericFields : List String → JSValue → Option String
  | [], _ => none
  | f :: rest, props =>
    if !(isUndefined (getField props f)) && !(isNumber (getField props f)) then
      some (errNumPre ++ f ++ errNumPost)
    else checkNumericFields rest props

/-- validatePropertyUpdate (validation.js lines 8-44), checks in source
order with first failure returned. -/
def validatePropertyUpdate (payload : JSValue) : ValidationResult :=
  if !(truthy payload) || !(isString (getField payload objectIdKey))
      || jsTrim (strOf (getField payload objectIdKey)) == emptyStr then
    ⟨false, some errObjectId⟩
  else if truthy (getField payload typeKey)
      && !(isValidType (getField payload typeKey)) then
    ⟨false, some (errTypePre ++ jsToString (getField payload typeKey) ++ errTypePost)⟩
  else if !(truthy (getField payload propertiesKey))
      || !(typeofIsObject (getField payload propertiesKey)) then
    ⟨false, some errProperties⟩
  else
    match checkNumericFields numericFields (getField payload propertiesKey) with
    | some e => ⟨false, some e⟩
    | none =>
      if !(isUndefined (getField (getField payload propertiesKey) widthKey))
          && jsLeZero (getField (getField payload propertiesKey) widthKey) then
        ⟨false, some errWidthPositive⟩
      else if !(isUndefined (getField (getField payload propertiesKey) heightKey))
          && jsLeZero (getField (getField payload propertiesKey) heightKey) then
        ⟨false, some errHeightPositive⟩
      else ⟨true, none⟩

/-! ## Substring test used to express that an error message mentions a word -/

/-- does the first character list lead the second one. -/
def charsLead : List Char → List Char → Bool
  | [], _ => true
  | _ :: _, [] => false
  | a :: as, b :: bs => a == b && charsLead as bs

/-- does the first character list occur inside the second one. -/
def charsWithin (needle : List Char) : List Char → Bool
  | [] => needle.isEmpty
  | b :: bs => charsLead needle (b :: bs) || charsWithin needle bs

/-- the string sub occurs in s. -/
def strMentions (s sub : String) : Bool :=
  charsWithin sub.toList s.toList

/-! ## Concrete payloads for the reference cases -/

def aStr : String := "a"

def goodPayload : JSValue :=
  .obj [(objectIdKey, .str aStr),
        (propertiesKey, .obj [(widthKey, .num (.finite 10)),
                              (heightKey, .num (.finite 20))])]

def missingIdPayload : JSValue :=
  .obj [(propertiesKey, .obj [(widthKey, .num (.finite 10))])]

def negWidthPayload : JSValue :=
  .obj [(objectIdKey, .str aStr),
        (propertiesKey, .obj [(widthKey, .num (.finite (-5)))])]

def nanWidthPayload : JSValue :=
  .obj [(objectIdKey, .str aStr),
        (propertiesKey, .obj [(widthKey, .num .nan)])]

def nanHeightPayload : JSValue :=
  .obj [(objectIdKey, .str aStr),
        (propertiesKey, .obj [(heightKey, .num .nan)])]

def emptyTypePayload : JSValue :=
  .obj [(objectIdKey, .str aStr),
        (typeKey, .str emptyStr),
        (propertiesKey, .obj [])]

def deleteStr : String := "delete"

def deleteTypePayload : JSValue :=
  .obj [(objectIdKey, .str aStr),
        (typeKey, .str deleteStr),
        (propertiesKey, .obj [])]

/-! ## Theorems about the validation layer -/

/-- C6: the three reference cases of the validator: the well-formed payload
is accepted; the payload missing objectId is rejected with an error
mentioning objectId; the negative-width payload is rejected with an error
mentioning positivity. -/
theorem validation_reference_cases :
    validatePropertyUpdate goodPayload = ⟨true, none⟩
    ∧ ((validatePropertyUpdate missingIdPayload).valid = false
        ∧ strMentions (((validatePropertyUpdate missingIdPayload).error).getD emptyStr)
            objectIdKey = true)
    ∧ ((validatePropertyUpdate negWidthPayload).valid = false
        ∧ strMentions (((validatePropertyUpdate negWidthPayload).error).getD emptyStr)
            "positive" = true) := by
  refine ⟨rfl, ⟨rfl, ?_⟩, ⟨rfl, ?_⟩⟩ <;> decide

/-- C10: a NaN width (or height) passes validation: typeof NaN is number,
and the positivity rejection (value <= 0) never triggers for NaN. -/
theorem nan_passes_validation :
    validatePropertyUpdate nanWidthPayload = ⟨true, none⟩
    ∧ validatePropertyUpdate nanHeightPayload = ⟨true, none⟩ :=
  ⟨rfl, rfl⟩

/-- C9: totality of the validator: on every dynamic value it returns a
result with a boolean valid field, carrying an error string exactly when
valid is false; being a total Lean function, it never throws. -/
theorem validatePropertyUpdate_total :
    ∀ p : JSValue,
      ((validatePropertyUpdate p).valid = true ∧ (validatePropertyUpdate p).error = none)
      ∨ ((validatePropertyUpdate p).valid = false
          ∧ ((validatePropertyUpdate p).error).isSome = true) := by
  intro p
  unfold validatePropertyUpdate
  repeat' split
  all_goals first
    | exact Or.inl ⟨rfl, rfl⟩
    | exact Or.inr ⟨rfl, rfl⟩

/-- C8 (counterexample): the payload whose type field is present and equal
to the empty string — a value outside the set resize, rotate, update — is
accepted, contradicting the claim that every present out-of-set type is
rejected: the truthiness guard payload.type skips the check for falsy
values. -/
theorem typeCheck_counterexample :
    validatePropertyUpdate emptyTypePayload = ⟨true, none⟩ := rfl

/-- C8 (amended): if the type field is present and truthy and not one of
resize, rotate, update, validation fails; a present but falsy type value
(such as the empty string) bypasses the check. -/
theorem typeCheck_amended :
    ∀ p : JSValue, truthy (getField p typeKey) = true →
      isValidType (getField p typeKey) = false →
      (validatePropertyUpdate p).valid = false := by
  intro p ht hv
  unfold validatePropertyUpdate
  split
  · rfl
  · rw [if_pos (by rw [ht, hv]; rfl)]

/-- C8 witness: the amended theorem applied to the payload with type equal
to the string delete. -/
theorem typeCheck_amended_witness :
    (validatePropertyUpdate deleteTypePayload).valid = false :=
  typeCheck_amended deleteTypePayload rfl rfl

/-! ## Connections, rooms and broadcast (src/unnamed/part_004) -/

/-- WebSocket.OPEN. -/
def WS_OPEN : Nat := 1

/-- a client connection handle: identity plus transport readyState. -/
structure Conn where
  id : Nat
  readyState : Nat
  deriving DecidableEq

/-- broadcastToRoom (part_004 lines 44-53): look up the room, send the
message to every client of that room whose socket is open.  The returned
list is the sequence of deliveries performed; note that no connection is
excluded. -/
def broadcastToRoom (rooms : List (String × List Conn)) (roomId : String)
    (message : List Nat) : List (Conn × List Nat) :=
  match rooms.lookup roomId with
  | none => []
  | some clients =>
    (clients.filter (fun c => c.readyState == WS_OPEN)).map (fun c => (c, message))

/-- the type-0 frame built by the update handler: varint tag 0 (sync),
then the writeUpdate sub-message (sub-tag 2 followed by the update bytes). -/
def syncUpdateFrame (update : List Nat) : List Nat :=
  0 :: 2 :: update

/-- the doc update listener (part_004 lines 99-110): on every mutation
event it calls saveToDB (reported as the Bool component) and, when the
origin is not the loaded-from-storage null, broadcasts the type-0 frame to
the room via broadcastToRoom. -/
def onDocUpdate (rooms : List (String × List Conn)) (roomId : String)
    (update : List Nat) (origin : Option Conn) : Bool × List (Conn × List Nat) :=
  (true,
    match origin with
    | none => []
    | some _ => broadcastToRoom rooms roomId (syncUpdateFrame update))

/-- the broadcast loop of the message handler in src/src/server.js lines
93-99: it iterates wss.clients — every connection of the server, not the
membership of the sending room — and delivers to every open connection
other than the sender. -/
def serverJsBroadcast (wssClients : List Conn) (ws : Conn)
    (update : List Nat) : List (Conn × List Nat) :=
  (wssClients.filter (fun c => !(c == ws) && c.readyState == WS_OPEN)).map
    (fun c => (c, update))

/-! Concrete configuration used by the broadcast counterexamples. -/

def c1conn : Conn := ⟨1, WS_OPEN⟩
def c2conn : Conn := ⟨2, WS_OPEN⟩
def roomMain : String := "room"
def demoUpdate : List Nat := [9]
def demoRooms : List (String × List Conn) := [(roomMain, [c1conn, c2conn])]
def roomAName : String := "roomA"
def roomBName : String := "roomB"
def demoRoomsAB : List (String × List Conn) :=
  [(roomAName, [c1conn]), (roomBName, [c2conn])]

/-- C1 (counterexample): in a room holding the origin connection and one
peer, both open, the mutation event with the origin connection produces a
broadcast whose recipients include the origin itself — the update is
echoed back, so the claim that the origin never receives its own update is
false. -/
theorem noEcho_counterexample :
    (c1conn, syncUpdateFrame demoUpdate)
      ∈ (onDocUpdate demoRooms roomMain demoUpdate (some c1conn)).2 := by
  decide

/-- C1 (amended): for a mutation with a non-null origin, the type-0 frame
is delivered to every open member of the room, the origin connection
included — broadcastToRoom performs no origin exclusion; only the null
(loaded-from-storage) origin suppresses the broadcast. -/
theorem noEcho_amended :
    ∀ (rooms : List (String × List Conn)) (roomId : String)
      (update : List Nat) (origin : Conn),
      ((onDocUpdate rooms roomId update (some origin)).2).map Prod.fst
        = ((rooms.lookup roomId).getD []).filter (fun c => c.readyState == WS_OPEN)
      ∧ (onDocUpdate rooms roomId update none).2 = [] := by
  intro rooms roomId update origin
  constructor
  · show (broadcastToRoom rooms roomId (syncUpdateFrame update)).map Prod.fst = _
    unfold broadcastToRoom
    cases h : rooms.lookup roomId with
    | none => simp [h]
    | some clients =>
      simp only [h, List.map_map]
      exact List.map_id _
  · rfl

/-- C7: the server.js broadcast loop leaks across rooms: with room A
holding connection 1 and room B holding connection 2, both open, an update
sent by connection 1 is delivered to connection 2, which is open but not a
member of room A — the claim that bytes reach only the sending session
membership fails on this loop (its own comment promises room scoping). -/
theorem broadcast_scope_bug :
    (serverJsBroadcast [c1conn, c2conn] c1conn demoUpdate).map Prod.fst = [c2conn]
    ∧ c2conn ∉ ((demoRoomsAB.lookup roomAName).getD [])
    ∧ c2conn.readyState = WS_OPEN := by
  decide

/-! ## Persisted-state loading (part_001 lines 55-73, part_004 lines 72-81) -/

/-- the external CRDT engine seen through its operation contract: decoding
a stored blob either yields a document state or rejects the bytes as
malformed (Y.applyUpdate throwing). -/
structure Engine where
  decode : List Nat → Option (List Nat)

/-- the load branch of the part_001 connection handler (lines 55-73): fetch
the record; if its data is non-empty, apply it; when the engine rejects the
bytes, delete the record (Room.findByIdAndDelete) and continue with the
empty document.  Returns the resulting document state and store; every
branch returns, so the connection is never failed. -/
def loadRoomSelfHealing (eng : Engine) (store : List (String × List Nat))
    (roomId : String) : List Nat × List (String × List Nat) :=
  match store.lookup roomId with
  | none => ([], store)
  | some data =>
    if 0 < data.length then
      match eng.decode data with
      | some st => (st, store)
      | none => ([], store.filter (fun p => !(p.1 == roomId)))
    else ([], store)

/-- the load step of getOrCreateRoom in part_004 (lines 72-81): same fetch
and apply, but the catch block only logs — the malformed record is kept in
the store and the room continues with the empty document. -/
def getOrCreateRoomLoad (eng : Engine) (store : List (String × List Nat))
    (roomId : String) : List Nat × List (String × List Nat) :=
  match store.lookup roomId with
  | none => ([], store)
  | some data =>
    if 0 < data.length then
      match eng.decode data with
      | some st => (st, store)
      | none => ([], store)
    else ([], store)

/-- an engine rejecting every blob, and a store holding one record, used to
evaluate the load paths on malformed data. -/
def badEngine : Engine := ⟨fun _ => none⟩

def roomRName : String := "r"
def demoStore : List (String × List Nat) := [(roomRName, [7])]

/-- C2 (counterexample): the engine rejects the stored bytes, yet after the
part_004 room-creation load the record is still present in the store — the
claim that every room creation discards a malformed record is false on the
getOrCreateRoom path. -/
theorem selfHealingLoad_counterexample :
    badEngine.decode [7] = none
    ∧ ((getOrCreateRoomLoad badEngine demoStore roomRName).2).lookup roomRName
        = some [7] := by
  constructor
  · rfl
  · rfl

/-- C2 (amended): on a stored record whose non-empty bytes the engine
rejects, the part_001 load deletes the record and continues with the empty
document, while the part_004 getOrCreateRoom load also continues with the
empty document without crashing but keeps the record in the store. -/
theorem selfHealingLoad_amended :
    (∀ (eng : Engine) (store : List (String × List Nat)) (roomId : String)
        (data : List Nat),
        store.lookup roomId = some data → 0 < data.length →
        eng.decode data = none →
        loadRoomSelfHealing eng store roomId
          = ([], store.filter (fun p => !(p.1 == roomId))))
    ∧ (∀ (eng : Engine) (store : List (String × List Nat)) (roomId : String)
        (data : List Nat),
        store.lookup roomId = some data → 0 < data.length →
        eng.decode data = none →
        getOrCreateRoomLoad eng store roomId = ([], store)) := by
  constructor
  · intro eng store roomId data hlook hlen hdec
    unfold loadRoomSelfHealing
    rw [hlook]
    simp only [if_pos hlen, hdec]
  · intro eng store roomId data hlook hlen hdec
    unfold getOrCreateRoomLoad
    rw [hlook]
    simp only [if_pos hlen, hdec]

/-- C2 witness: the amended theorem evaluated on the concrete rejecting
engine and one-record store. -/
theorem selfHealingLoad_amended_witness :
    loadRoomSelfHealing badEngine demoStore roomRName = ([], [])
    ∧ getOrCreateRoomLoad badEngine demoStore roomRName = ([], demoStore) := by
  have h₁ := selfHealingLoad_amended.1 badEngine demoStore roomRName [7]
    (by decide) (by decide) rfl
  have h₂ := selfHealingLoad_amended.2 badEngine demoStore roomRName [7]
    (by decide) (by decide) rfl
  exact ⟨by rw [h₁]; rfl, h₂⟩

/-! ## Debounced persistence (saveToDB, part_004 lines 84-96) -/

/-- the fixed debounce delay of saveToDB, in milliseconds. -/
def saveDebounceMs : Nat := 2000

/-- a durable write: the instant the timer fired and the document version
snapshotted at that instant (Y.encodeStateAsUpdate reads the live doc when
the timer fires). -/
structure DurableWrite where
  time : Nat
  snapshotVersion : Nat
  deriving DecidableEq

/-- the debounce machine run on a timeline of touch events, each given as
(time of the saveToDB call, document version right after that mutation),
times non-decreasing.  A pending timer armed at t fires at t + delay
unless a further touch occurs no later than t + delay, in which case
clearTimeout cancels it and the new timer replaces it.  The result is the
sequence of durable writes performed. -/
def debounceRun : List (Nat × Nat) → List DurableWrite
  | [] => []
  | [(t, v)] => [⟨t + saveDebounceMs, v⟩]
  | (t₁, v₁) :: (t₂, v₂) :: rest =>
    if t₁ + saveDebounceMs < t₂ then
      ⟨t₁ + saveDebounceMs, v₁⟩ :: debounceRun ((t₂, v₂) :: rest)
    else debounceRun ((t₂, v₂) :: rest)

/-- every pair of consecutive touches is separated by at most the debounce
delay (each one lands inside the pending window of its predecessor). -/
def gapsWithinD : List (Nat × Nat) → Bool
  | (t₁, _) :: (t₂, v₂) :: rest =>
    decide (t₂ ≤ t₁ + saveDebounceMs) && gapsWithinD ((t₂, v₂) :: rest)
  | _ => true

/-- the number of consecutive gaps exceeding the debounce delay. -/
def countBigGaps : List (Nat × Nat) → Nat
  | (t₁, _) :: (t₂, v₂) :: rest =>
    (if t₁ + saveDebounceMs < t₂ then 1 else 0) + countBigGaps ((t₂, v₂) :: rest)
  | _ => 0

/-- coalescing: if all gaps stay within the delay, the run performs exactly
the one write of the final touch, delayed by the debounce window. -/
theorem debounceRun_coalesce (touches : List (Nat × Nat))
    (hne : touches ≠ []) (hgap : gapsWithinD touches = true) :
    debounceRun touches
      = [⟨(touches.getLastD (0, 0)).1 + saveDebounceMs,
          (touches.getLastD (0, 0)).2⟩] := by
  induction touches with
  | nil => exact absurd rfl hne
  | cons a rest ih =>
    cases rest with
    | nil => rfl
    | cons b rest₂ =>
      have hab : (b.1 ≤ a.1 + saveDebounceMs) ∧ gapsWithinD (b :: rest₂) = true := by
        have : gapsWithinD (a :: b :: rest₂) = true := hgap
        unfold gapsWithinD at this
        simpa using this
      have step : debounceRun (a :: b :: rest₂) = debounceRun (b :: rest₂) := by
        show (if a.1 + saveDebounceMs < b.1 then _ else _) = _
        rw [if_neg (by omega)]
      rw [step, ih (by simp) hab.2]
      simp [List.getLastD_cons]

/-- counting: the number of durable writes is one more than the number of
gaps exceeding the delay. -/
theorem debounceRun_length (touches : List (Nat × Nat)) (hne : touches ≠ []) :
    (debounceRun touches).length = 1 + countBigGaps touches := by
  induction touches with
  | nil => exact absurd rfl hne
  | cons a rest ih =>
    cases rest with
    | nil => rfl
    | cons b rest₂ =>
      have ih₂ := ih (by simp)
      show (if a.1 + saveDebounceMs < b.1 then
              (⟨a.1 + saveDebounceMs, a.2⟩ : DurableWrite) :: debounceRun (b :: rest₂)
            else debounceRun (b :: rest₂)).length
          = 1 + ((if a.1 + saveDebounceMs < b.1 then 1 else 0)
              + countBigGaps (b :: rest₂))
      by_cases h : a.1 + saveDebounceMs < b.1
      · rw [if_pos h, if_pos h]
        simp only [List.length_cons, ih₂]
        omega
      · rw [if_neg h, if_neg h]
        simp only [ih₂]
        omega

/-- C4: debounce coalescing of saveToDB: touches all landing within the
2000 ms window of their predecessor produce exactly one durable write,
scheduled at the last mutation plus the delay and snapshotting the
document version of that last mutation; in general the number of writes is
one plus the number of inter-touch gaps exceeding the delay (one write per
gap). -/
theorem saveToDB_debounce (touches : List (Nat × Nat)) (hne : touches ≠ []) :
    (gapsWithinD touches = true →
      debounceRun touches
        = [⟨(touches.getLastD (0, 0)).1 + saveDebounceMs,
            (touches.getLastD (0, 0)).2⟩])
    ∧ (debounceRun touches).length = 1 + countBigGaps touches :=
  ⟨fun hgap => debounceRun_coalesce touches hne hgap,
   debounceRun_length touches hne⟩

/-- C4 witness: three touches inside one window coalesce into the single
write at the last touch plus 2000 ms carrying the last version. -/
theorem saveToDB_debounce_witness :
    debounceRun [(0, 1), (1000, 2), (1500, 3)] = [⟨3500, 3⟩]
    ∧ (debounceRun [(0, 1), (1000, 2), (1500, 3)]).length
        = 1 + countBigGaps [(0, 1), (1000, 2), (1500, 3)] := by
  have h := saveToDB_debounce [(0, 1), (1000, 2), (1500, 3)] (by decide)
  exact ⟨by rw [h.1 (by decide)]; decide, h.2⟩

/-! ## Message dispatcher and disconnect handler (part_004 lines 153-184) -/

/-- the awareness table of a room: entries keyed by client token, each
carrying the originating connection and an opaque state blob. -/
def AwTable : Type := List (Nat × Conn × List Nat)

instance : DecidableEq AwTable := by
  unfold AwTable
  infer_instance

/-- the external protocol engine used by the dispatcher: readSyncMessage
consumes the sync payload against the document, returning the new document
state and the reply body appended to the encoder; applyAwarenessUpdate
folds an awareness payload into the table with the sender as origin. -/
structure SyncEngine where
  readSyncMessage : List Nat → List Nat → List Nat × List Nat
  applyAwarenessUpdate : AwTable → List Nat → Conn → AwTable

/-- the per-room state touched by the dispatcher: document, awareness
table and membership. -/
structure RoomConnState where
  doc : List Nat
  awareness : AwTable
  clients : List Conn
  deriving DecidableEq

/-- the ws message handler of part_004 (lines 153-175): decode the leading
varint type tag and dispatch.  Case 0 runs readSyncMessage with the sender
as origin and sends the reply back to the sender alone when the encoder
grew beyond the tag byte; case 1 folds the awareness update; every other
tag — type 2, type 3, anything unknown — falls through the switch and the
frame is dropped with no state change and no send.  The returned list is
the sequence of direct sends performed by the handler itself (fan-out of
accepted mutations happens separately through the document update
listener, onDocUpdate). -/
def handleMessage (eng : SyncEngine) (room : RoomConnState) (ws : Conn)
    (messageType : Nat) (payload : List Nat) :
    RoomConnState × List (Conn × List Nat) :=
  match messageType with
  | 0 =>
    let res := eng.readSyncMessage room.doc payload
    ({ room with doc := res.1 },
      if 0 < res.2.length then [(ws, 0 :: res.2)] else [])
  | 1 =>
    ({ room with awareness := eng.applyAwarenessUpdate room.awareness payload ws },
      [])
  | _ => (room, [])

/-- the ws close handler of part_004 (lines 178-184): the connection is
deleted from the membership set and nothing else happens — the awareness
table is left untouched and no removal frame is sent. -/
def closeHandler (room : RoomConnState) (ws : Conn) :
    RoomConnState × List (Conn × List Nat) :=
  ({ room with clients := room.clients.erase ws }, [])

/-- a payload passing the validation layer, the JSON body of a type-3
frame. -/
def propPayload : JSValue :=
  .obj [(objectIdKey, .str aStr),
        (propertiesKey, .obj [(widthKey, .num (.finite 10))])]

/-- C3: the dispatcher has no case for type-3 PropertyUpdate frames: for
every engine, room state, sender and payload a type-3 frame leaves the
room state unchanged and performs no send — in particular the validation
layer is never consulted, even though validatePropertyUpdate accepts the
reference payload; the frame is silently dropped instead of being
validated and applied. -/
theorem propertyUpdateFrame_ignored :
    (∀ (eng : SyncEngine) (room : RoomConnState) (ws : Conn)
        (payload : List Nat),
        handleMessage eng room ws 3 payload = (room, []))
    ∧ (validatePropertyUpdate propPayload).valid = true :=
  ⟨fun _ _ _ _ => rfl, rfl⟩

/-- the room state used by the disconnect counterexample: one awareness
entry owned by connection 1, two members. -/
def demoRoomState : RoomConnState :=
  ⟨[5], [(7, c1conn, [3])], [c1conn, c2conn]⟩

/-- C5 (counterexample): when connection 1 closes, the awareness entry it
owns survives in the table and no removal delta is broadcast (zero sends,
not exactly one) — the claim that disconnect removes the entries and
broadcasts the removal is false. -/
theorem closeHandler_counterexample :
    (closeHandler demoRoomState c1conn).1.awareness = [(7, c1conn, [3])]
    ∧ (closeHandler demoRoomState c1conn).2 = [] := by
  constructor
  · rfl
  · rfl

/-- C5 (amended): the close handler only removes the connection from the
room membership; the awareness table is unchanged and no frame is sent. -/
theorem closeHandler_amended :
    ∀ (room : RoomConnState) (ws : Conn),
      (closeHandler room ws).1.clients = room.clients.erase ws
      ∧ (closeHandler room ws).1.awareness = room.awareness
      ∧ (closeHandler room ws).1.doc = room.doc
      ∧ (closeHandler room ws).2 = [] :=
  fun _ _ => ⟨rfl, rfl, rfl, rfl⟩
